import Mathlib

/-!
Verification development for the Solar-Prediction repository (`app.py`).

The program is a single-page Streamlit app: seven numeric input widgets, a
cached model loader (`load_model`, decorated with `st.cache_resource`), and a
click handler that builds a 1x7 feature array, calls
`model.predict(features).item()`, and renders the result or an error.

Shallow embedding choices:
* Numeric widget/feature values are rationals (`ℚ`), the standard exact
  abstraction of the Python floats flowing through the app.
* A model artifact is an opaque function from a batch of feature rows to
  either a raised exception or a returned array (list of numbers), mirroring
  that `model.predict` may raise anything and otherwise returns an ndarray.
* Python exceptions are split by the only type distinction the handler makes:
  `FileNotFoundError` versus everything else.
* The filesystem is a map from (absolute) path strings to existence plus the
  outcome of deserializing the file with `joblib.load`.
* `st.cache_resource` is modelled as an explicit association list keyed by the
  function argument `model_path`, threaded through calls, together with a
  counter of filesystem reads (`joblib.load` invocations). Streamlit does not
  cache a raising call, so only successful loads enter the cache.
-/

namespace SolarApp

/-- A Python exception, distinguished only as the `except` clauses of the
click handler distinguish them: `FileNotFoundError` (carrying `str(e)`)
versus any other exception (carrying its message). -/
inductive Exc where
  | fileNotFound (msg : String)
  | other (msg : String)
deriving DecidableEq, Repr

/-- An opaque deserialized model artifact: `predict` takes a batch of feature
rows and either raises an exception or returns an array of numbers. -/
def Model : Type := List (List ℚ) → Except Exc (List ℚ)

/-- The filesystem as seen by `load_model`: whether a path exists, and what
`joblib.load` yields there (a model, or a raised exception). -/
structure FS where
  pathExists : String → Bool
  loadArtifact : String → Except Exc Model

/-- POSIX resolution of a relative path against the process's current working
directory: `Path(model_path)` with a relative string resolves against the CWD
of the process, not against the directory containing `app.py`. -/
def resolve (cwd rel : String) : String := cwd ++ "/" ++ rel

/-- The default value of `load_model`'s `model_path` parameter
(`app.py` line 109). -/
def defaultModelPath : String := "system_production_model.pkl"

/-- The `FileNotFoundError` message raised by `load_model`
(`app.py` lines 112-115); two adjacent Python string literals concatenate. -/
def fnfMessage (model_path : String) : String :=
  "Model file '" ++ model_path ++ "' not found. " ++
    "Make sure it is in the same folder as app.py."

/-- The body of `load_model` (`app.py` lines 109-117), without the
`st.cache_resource` caching layer: check existence of the (CWD-resolved)
path, raise `FileNotFoundError` if absent, otherwise deserialize. -/
def load_model (fs : FS) (cwd : String) (model_path : String) : Except Exc Model :=
  let path := resolve cwd model_path
  if fs.pathExists path then fs.loadArtifact path
  else .error (.fileNotFound (fnfMessage model_path))

/-- Process-local state of the `st.cache_resource` layer: the cache keyed by
the `model_path` argument, and a count of filesystem reads
(`joblib.load` invocations) performed so far. -/
structure LoadState where
  cache : List (String × Model)
  reads : Nat

/-- The function `load_model` as called through `st.cache_resource`: a cache hit returns
the stored instance and touches neither the filesystem nor the state; a miss
runs the body, and a successful load is cached. A raising call is not cached
(Streamlit does not cache exceptions). The existence check performs no read;
`reads` counts `joblib.load` invocations. -/
def load_model_cached (fs : FS) (cwd : String) (s : LoadState) (model_path : String) :
    Except Exc Model × LoadState :=
  match s.cache.lookup model_path with
  | some m => (.ok m, s)
  | none =>
    let path := resolve cwd model_path
    if fs.pathExists path then
      match fs.loadArtifact path with
      | .ok m => (.ok m, ⟨(model_path, m) :: s.cache, s.reads + 1⟩)
      | .error e => (.error e, ⟨s.cache, s.reads + 1⟩)
    else
      (.error (.fileNotFound (fnfMessage model_path)), s)

/-- The seven widget values, named as in `app.py` lines 175-234. -/
structure Inputs where
  date_hour : ℚ
  wind_speed : ℚ
  sunshine : ℚ
  air_pressure : ℚ
  radiation : ℚ
  air_temperature : ℚ
  relative_humidity : ℚ
deriving DecidableEq, Repr

/-- The single feature row built by the click handler
(`app.py` lines 254-264): the seven widget values in source order. -/
def featuresOf (i : Inputs) : List ℚ :=
  [i.date_hour, i.wind_speed, i.sunshine, i.air_pressure, i.radiation,
    i.air_temperature, i.relative_humidity]

/-- Model of `numpy.ndarray.item()` with no argument: succeeds exactly when the array
holds a single element, otherwise raises `ValueError`. -/
def npItem (xs : List ℚ) : Except Exc ℚ :=
  match xs with
  | [x] => .ok x
  | _ => .error (.other "can only convert an array of size 1 to a Python scalar")

/-- The two digits after the decimal point: `n` is the number of centesimals
in `[0, 100)`. -/
def twoDigitStr (n : Nat) : String :=
  String.mk [Nat.digitChar (n / 10 % 10), Nat.digitChar (n % 10)]

/-- Three zero-padded digits, for a thousands group. -/
def pad3 (n : Nat) : String :=
  String.mk [Nat.digitChar (n / 100 % 10), Nat.digitChar (n / 10 % 10),
    Nat.digitChar (n % 10)]

/-- Decimal digits of a natural number grouped by thousands with commas, as
produced by Python's `,` format flag. -/
def groupedNat (n : Nat) : String :=
  if n < 1000 then toString n
  else groupedNat (n / 1000) ++ "," ++ pad3 (n % 1000)
decreasing_by exact Nat.div_lt_self (by omega) (by omega)

/-- Python's `f"{x:.2f}"` on the exact value `q`: round to the nearest
centesimal and print with exactly two digits after the decimal point.
(Rounding of exact halves is abstracted by `round`; the app's claims do not
depend on the tie-breaking rule.) -/
def fmt2 (q : ℚ) : String :=
  let c : ℤ := round (q * 100)
  (if c < 0 then "-" else "") ++ toString (c.natAbs / 100) ++ "." ++
    twoDigitStr (c.natAbs % 100)

/-- Python's `f"{x:,.2f}"`: as `fmt2` but with the integer part grouped by
thousands. -/
def fmtComma2 (q : ℚ) : String :=
  let c : ℤ := round (q * 100)
  (if c < 0 then "-" else "") ++ groupedNat (c.natAbs / 100) ++ "." ++
    twoDigitStr (c.natAbs % 100)

/-- One rendered element of the output column (`app.py` lines 244-288), in
render order: `st.metric`, `st.success`, `st.expander` (holding the raw
feature array), `st.error`, `st.exception` (the debug/traceback view), and
`st.info`. -/
inductive OutputItem where
  | metric (label value : String)
  | success (msg : String)
  | expander (label : String) (content : List (List ℚ))
  | errorBox (msg : String)
  | exceptionBox (e : Exc)
  | infoBox (msg : String)
deriving DecidableEq, Repr

/-- The generic message of `st.error` in the catch-all `except` clause
(`app.py` line 283). -/
def genericFailureMsg : String := "🚨 An error occurred while generating prediction."

/-- The message of `st.info` shown when the button was not clicked
(`app.py` line 286). -/
def idleMsg : String := "Click **Predict Solar Energy** after entering all inputs."

/-- The computation inside the `try` block up to the bound `prediction`
(`app.py` lines 253-265): use the model obtained from `load_model()` (whose
exception, if any, propagates to the same `except` clauses), call
`predict` on the 1x7 array `[[...]]`, and coerce the result with `.item()`. -/
def tryBody (loaded : Except Exc Model) (i : Inputs) : Except Exc ℚ :=
  loaded.bind (fun model => (model [featuresOf i]).bind npItem)

/-- The elements rendered on success (`app.py` lines 267-278): the metric
with the prediction at two decimal places, the success notice echoing
`date_hour` at two decimal places, and the expander holding the raw 1x7
input array. -/
def successItems (p : ℚ) (i : Inputs) : List OutputItem :=
  [ .metric "Predicted System / Solar Energy" (fmtComma2 p),
    .success ("✅ Prediction generated successfully for Date-Hour (NMT): **" ++
      fmt2 i.date_hour ++ "**"),
    .expander "View raw input vector" [featuresOf i] ]

/-- The `try`/`except` of the click handler (`app.py` lines 252-284):
a `FileNotFoundError` — wherever it was raised inside the `try` block — is
rendered as `st.error(str(e))`; any other exception as the generic
`st.error` followed by `st.exception(e)`. -/
def renderTry (loaded : Except Exc Model) (i : Inputs) : List OutputItem :=
  match tryBody loaded i with
  | .ok p => successItems p i
  | .error (.fileNotFound msg) => [.errorBox msg]
  | .error (.other msg) => [.errorBox genericFailureMsg, .exceptionBox (.other msg)]

/-- The whole output column for one script run (`app.py` lines 251-286):
if the button was clicked, run `load_model()` through the cache and the
`try`/`except`; otherwise show the info box. -/
def renderOutput (fs : FS) (cwd : String) (s : LoadState) (clicked : Bool)
    (i : Inputs) : List OutputItem × LoadState :=
  if clicked then
    let r := load_model_cached fs cwd s defaultModelPath
    (renderTry r.1 i, r.2)
  else
    ([.infoBox idleMsg], s)

/-- A numeric input widget's declared bounds (`st.number_input`):
`none` means the bound was not passed. -/
structure NumberInput where
  minVal : Option ℚ
  maxVal : Option ℚ
  defVal : ℚ
deriving DecidableEq, Repr

/-- Modelled from the spec: "Widget bounds are enforced at entry: a value
below an input's minimum or above its maximum cannot be submitted". The
enforcement is performed by the Streamlit widget (third-party code, not in
this repository); this predicate says which values the widget can hand to
the script. -/
def NumberInput.submittable (w : NumberInput) (v : ℚ) : Bool :=
  (match w.minVal with | some m => decide (m ≤ v) | none => true) &&
  (match w.maxVal with | some M => decide (v ≤ M) | none => true)

/-- The Date-Hour widget (`app.py` lines 175-180): no bounds, default 1.00. -/
def dateHourInput : NumberInput := ⟨none, none, 1⟩

/-- The Wind Speed widget (`app.py` lines 183-189): bounds 0.0-50.0. -/
def windSpeedInput : NumberInput := ⟨some 0, some 50, 3.5⟩

/-- The Sunshine widget (`app.py` lines 192-198): bounds 0.0-24.0. -/
def sunshineInput : NumberInput := ⟨some 0, some 24, 6⟩

/-- The Air Pressure widget (`app.py` lines 201-207): bounds 800.0-1100.0. -/
def airPressureInput : NumberInput := ⟨some 800, some 1100, 1013⟩

/-- The Radiation widget (`app.py` lines 210-216): bounds 0.0-1500.0. -/
def radiationInput : NumberInput := ⟨some 0, some 1500, 650⟩

/-- The Air Temperature widget (`app.py` lines 219-225): bounds
-20.0-60.0. -/
def airTemperatureInput : NumberInput := ⟨some (-20), some 60, 28⟩

/-- The Relative Air Humidity widget (`app.py` lines 228-234): bounds
0.0-100.0. -/
def relativeHumidityInput : NumberInput := ⟨some 0, some 100, 45⟩

/-- All seven widget values were admitted by their respective widgets. -/
def submittedInputs (i : Inputs) : Bool :=
  dateHourInput.submittable i.date_hour &&
  windSpeedInput.submittable i.wind_speed &&
  sunshineInput.submittable i.sunshine &&
  airPressureInput.submittable i.air_pressure &&
  radiationInput.submittable i.radiation &&
  airTemperatureInput.submittable i.air_temperature &&
  relativeHumidityInput.submittable i.relative_humidity

/-- The widgets' default values, as an `Inputs` record. -/
def defaultInputs : Inputs :=
  ⟨dateHourInput.defVal, windSpeedInput.defVal, sunshineInput.defVal,
    airPressureInput.defVal, radiationInput.defVal, airTemperatureInput.defVal,
    relativeHumidityInput.defVal⟩

/-! ## Helper lemmas -/

/-- A digit character produced by `Nat.digitChar` on a value below ten is a
decimal digit. -/
theorem digitChar_isDigit {m : Nat} (h : m < 10) : (Nat.digitChar m).isDigit = true := by
  interval_cases m <;> rfl

/-- Every string produced by `fmtComma2` ends in a decimal point followed by
exactly two digit characters. -/
theorem fmtComma2_two_decimals (q : ℚ) :
    ∃ pre d₁ d₂, fmtComma2 q = pre ++ String.mk ['.', d₁, d₂] ∧
      d₁.isDigit = true ∧ d₂.isDigit = true := by
  unfold fmtComma2
  refine ⟨(if round (q * 100) < 0 then "-" else "") ++
      groupedNat ((round (q * 100)).natAbs / 100),
    Nat.digitChar ((round (q * 100)).natAbs % 100 / 10 % 10),
    Nat.digitChar ((round (q * 100)).natAbs % 100 % 10), ?_, ?_, ?_⟩
  · rw [String.append_assoc]
    rfl
  · exact digitChar_isDigit (Nat.mod_lt _ (by omega))
  · exact digitChar_isDigit (Nat.mod_lt _ (by omega))

/-- Running the cached loader a second time from the state the first run
produced yields the same result as the first run. -/
theorem load_model_cached_stable (fs : FS) (cwd : String) (s : LoadState) (p : String) :
    (load_model_cached fs cwd ((load_model_cached fs cwd s p).2) p).1 =
      (load_model_cached fs cwd s p).1 := by
  unfold load_model_cached
  cases hl : s.cache.lookup p with
  | some m => simp [hl]
  | none =>
    cases hex : fs.pathExists (resolve cwd p) with
    | false => simp [hl, hex]
    | true =>
      cases hart : fs.loadArtifact (resolve cwd p) with
      | ok m => simp [hl, hex, hart, List.lookup]
      | error e => simp [hl, hex, hart]

/-! ## Claims -/

/-- C1: the click handler passes `predict` the single row
`[date_hour, wind_speed, sunshine, air_pressure, radiation, air_temperature,
relative_humidity]`, exactly 7 values in that positional order, with no
reordering, truncation or padding, and the result is coerced by `.item()`. -/
theorem predict_receives_exactly_the_seven_features (m : Model) (i : Inputs) :
    tryBody (.ok m) i = (m [featuresOf i]).bind npItem ∧
      (featuresOf i).length = 7 ∧
      featuresOf i = [i.date_hour, i.wind_speed, i.sunshine, i.air_pressure,
        i.radiation, i.air_temperature, i.relative_humidity] :=
  ⟨rfl, rfl, rfl⟩

/-- C2: when the (CWD-resolved) path does not exist, `load_model` fails with
the `FileNotFoundError` whose message contains the attempted path; the
failure does not depend on the deserializer at all (no deserialization is
attempted, so the load never partially succeeds); and on a click in that
situation the output column shows exactly that error message — in
particular no metric (scalar) — and the state is untouched. -/
theorem load_fails_on_missing_artifact (fs : FS) (cwd : String) (s : LoadState)
    (i : Inputs)
    (hmiss : fs.pathExists (resolve cwd defaultModelPath) = false)
    (hcold : s.cache.lookup defaultModelPath = none) :
    load_model fs cwd defaultModelPath =
        .error (.fileNotFound (fnfMessage defaultModelPath)) ∧
      (∃ pre post, fnfMessage defaultModelPath = pre ++ defaultModelPath ++ post) ∧
      (∀ g : String → Except Exc Model,
        load_model ⟨fs.pathExists, g⟩ cwd defaultModelPath =
          .error (.fileNotFound (fnfMessage defaultModelPath))) ∧
      renderOutput fs cwd s true i =
        ([.errorBox (fnfMessage defaultModelPath)], s) := by
  refine ⟨?_, ?_, ?_, ?_⟩
  · simp [load_model, hmiss]
  · exact ⟨"Model file '", "' not found. " ++
      "Make sure it is in the same folder as app.py.",
      by rw [fnfMessage, String.append_assoc, String.append_assoc]⟩
  · intro g
    simp [load_model, hmiss]
  · simp [renderOutput, load_model_cached, hcold, hmiss, renderTry, tryBody,
      Except.bind]

/-- Closed witness for `load_fails_on_missing_artifact` at a concrete empty
filesystem and cold cache. -/
theorem load_fails_on_missing_artifact_witness :
    (FS.mk (fun _ => false) (fun _ => .error (.other "unused"))).pathExists
        (resolve "home" defaultModelPath) = false ∧
      (LoadState.mk [] 0).cache.lookup defaultModelPath = none ∧
      renderOutput (FS.mk (fun _ => false) (fun _ => .error (.other "unused")))
          "home" (LoadState.mk [] 0) true defaultInputs =
        ([.errorBox (fnfMessage defaultModelPath)], LoadState.mk [] 0) :=
  ⟨rfl, rfl,
    (load_fails_on_missing_artifact
      (FS.mk (fun _ => false) (fun _ => .error (.other "unused"))) "home"
      (LoadState.mk [] 0) defaultInputs rfl rfl).2.2.2⟩

/-- C3: on a cold cache, a successful `load_model` call reads the file
exactly once (the read counter advances by one), and every later call —
against any filesystem whatsoever, so without any filesystem access —
returns the very same cached model instance and leaves the state (hence the
read counter) unchanged. -/
theorem load_model_cached_idempotent (fs : FS) (cwd : String) (s : LoadState)
    (p : String) (m : Model)
    (hcold : s.cache.lookup p = none)
    (hok : (load_model_cached fs cwd s p).1 = .ok m) :
    (load_model_cached fs cwd s p).2.reads = s.reads + 1 ∧
      ∀ (fs₂ : FS) (cwd₂ : String),
        load_model_cached fs₂ cwd₂ (load_model_cached fs cwd s p).2 p =
          (.ok m, (load_model_cached fs cwd s p).2) := by
  unfold load_model_cached at hok ⊢
  simp only [hcold] at hok ⊢
  cases hex : fs.pathExists (resolve cwd p) with
  | false => simp [hex] at hok
  | true =>
    cases hart : fs.loadArtifact (resolve cwd p) with
    | ok m₀ =>
      simp only [hex, hart, if_true, eq_self_iff_true, if_pos] at hok ⊢
      simp only [Except.ok.injEq] at hok
      subst hok
      refine ⟨trivial, fun fs₂ cwd₂ => ?_⟩
      simp [List.lookup]
    | error e => simp [hex, hart] at hok

/-- Closed witness for `load_model_cached_idempotent` at a concrete
filesystem holding one artifact. -/
theorem load_model_cached_idempotent_witness :
    ((LoadState.mk [] 0).cache.lookup defaultModelPath = none) ∧
      ((load_model_cached
          (FS.mk (fun _ => true) (fun _ => .ok (fun _ => .ok [0])))
          "home" (LoadState.mk [] 0) defaultModelPath).1 =
        .ok (fun _ => .ok [0])) ∧
      ((load_model_cached
          (FS.mk (fun _ => true) (fun _ => .ok (fun _ => .ok [0])))
          "home" (LoadState.mk [] 0) defaultModelPath).2.reads = 0 + 1) :=
  ⟨rfl, rfl,
    (load_model_cached_idempotent
      (FS.mk (fun _ => true) (fun _ => .ok (fun _ => .ok [0])))
      "home" (LoadState.mk [] 0) defaultModelPath (fun _ => .ok [0]) rfl rfl).1⟩

/-- C4 counterexample: an inference call that raises a `FileNotFoundError`
is NOT surfaced as the generic prediction-failure message — it is rendered
as the bare exception message by the `except FileNotFoundError` clause, so
the claim "every exception raised by the inference call is surfaced as a
generic PredictionFailure" is false. Here the artifact loads fine and
`predict` itself raises. -/
theorem inference_fnf_not_generic_cex :
    renderTry (.ok (fun _ => .error (.fileNotFound "predict raised"))) defaultInputs =
        [.errorBox "predict raised"] ∧
      ("predict raised" ≠ genericFailureMsg) ∧
      renderTry (.ok (fun _ => .error (.fileNotFound "predict raised"))) defaultInputs ≠
        [.errorBox genericFailureMsg,
          .exceptionBox (.other "predict raised")] :=
  ⟨rfl, by decide, by decide⟩

/-- C4 (amended): every exception raised by the inference call that is not a
`FileNotFoundError` is caught and surfaced as the generic prediction-failure
message — which differs from the missing-artifact message — followed only by
the `st.exception` debug view of the exception, never as a bare re-raise. -/
theorem non_fnf_inference_exception_generic (m : Model) (i : Inputs) (msg : String)
    (h : m [featuresOf i] = .error (.other msg)) :
    renderTry (.ok m) i =
        [.errorBox genericFailureMsg, .exceptionBox (.other msg)] ∧
      genericFailureMsg ≠ fnfMessage defaultModelPath := by
  constructor
  · simp [renderTry, tryBody, Except.bind, h]
  · decide

/-- Closed witness for `non_fnf_inference_exception_generic` at a model that
raises a generic exception. -/
theorem non_fnf_inference_exception_generic_witness :
    ((fun _ => .error (.other "bad shape") : Model) [featuresOf defaultInputs] =
        .error (.other "bad shape")) ∧
      renderTry (.ok (fun _ => .error (.other "bad shape"))) defaultInputs =
        [.errorBox genericFailureMsg, .exceptionBox (.other "bad shape")] :=
  ⟨rfl,
    (non_fnf_inference_exception_generic
      (fun _ => .error (.other "bad shape")) defaultInputs "bad shape" rfl).1⟩

/-- C5: on a successful prediction the output column is exactly the metric
showing the scalar formatted with two decimal places, the success notice
echoing the entered date-hour value (itself at two decimal places), and the
expander holding the raw 1x7 input vector; the metric string ends in a
decimal point followed by exactly two digit characters. -/
theorem success_render_shape (loaded : Except Exc Model) (i : Inputs) (p : ℚ)
    (h : tryBody loaded i = .ok p) :
    renderTry loaded i =
        [ .metric "Predicted System / Solar Energy" (fmtComma2 p),
          .success ("✅ Prediction generated successfully for Date-Hour (NMT): **" ++
            fmt2 i.date_hour ++ "**"),
          .expander "View raw input vector" [featuresOf i] ] ∧
      (∃ pre d₁ d₂, fmtComma2 p = pre ++ String.mk ['.', d₁, d₂] ∧
        d₁.isDigit = true ∧ d₂.isDigit = true) ∧
      (featuresOf i).length = 7 := by
  refine ⟨?_, fmtComma2_two_decimals p, rfl⟩
  simp [renderTry, h, successItems]

/-- Closed witness for `success_render_shape` at a model returning the
single value 5. -/
theorem success_render_shape_witness :
    (tryBody (.ok (fun _ => .ok [(5 : ℚ)])) defaultInputs = .ok 5) ∧
      renderTry (.ok (fun _ => .ok [(5 : ℚ)])) defaultInputs =
        [ .metric "Predicted System / Solar Energy" (fmtComma2 5),
          .success ("✅ Prediction generated successfully for Date-Hour (NMT): **" ++
            fmt2 defaultInputs.date_hour ++ "**"),
          .expander "View raw input vector" [featuresOf defaultInputs] ] :=
  ⟨rfl,
    (success_render_shape (.ok (fun _ => .ok [(5 : ℚ)])) defaultInputs 5 rfl).1⟩

/-- C6: prediction is deterministic across invocations: clicking again with
the same filesystem, widget values and the state left by the previous click
renders the identical output column (in particular the identical scalar). -/
theorem repeat_click_deterministic (fs : FS) (cwd : String) (s : LoadState)
    (i : Inputs) :
    (renderOutput fs cwd ((renderOutput fs cwd s true i).2) true i).1 =
      (renderOutput fs cwd s true i).1 := by
  simp only [renderOutput, if_true]
  rw [load_model_cached_stable]

/-- A widget with both bounds set rejects every value outside them. -/
theorem submittable_false_of_out_of_range (lo hi d v : ℚ) (hv : v < lo ∨ hi < v) :
    (NumberInput.mk (some lo) (some hi) d).submittable v = false := by
  rcases hv with hv | hv
  · have hle : ¬ (lo ≤ v) := not_le.mpr hv
    simp [NumberInput.submittable, hle]
  · have hle : ¬ (v ≤ hi) := not_le.mpr hv
    simp [NumberInput.submittable, hle]

/-- C7: values that reached the script through the widgets satisfy the
declared bounds — so such values are the only ones that can enter the
feature vector — each bounded widget rejects any value strictly below its
minimum or strictly above its maximum, and the date-hour widget admits
every value (it is unbounded). -/
theorem widget_bounds_enforced (i : Inputs) (h : submittedInputs i = true) :
    ((0 ≤ i.wind_speed ∧ i.wind_speed ≤ 50) ∧
        (0 ≤ i.sunshine ∧ i.sunshine ≤ 24) ∧
        (800 ≤ i.air_pressure ∧ i.air_pressure ≤ 1100) ∧
        (0 ≤ i.radiation ∧ i.radiation ≤ 1500) ∧
        (-20 ≤ i.air_temperature ∧ i.air_temperature ≤ 60) ∧
        (0 ≤ i.relative_humidity ∧ i.relative_humidity ≤ 100)) ∧
      (∀ v : ℚ, dateHourInput.submittable v = true) ∧
      (∀ v : ℚ, v < 0 ∨ 50 < v → windSpeedInput.submittable v = false) ∧
      (∀ v : ℚ, v < 0 ∨ 24 < v → sunshineInput.submittable v = false) ∧
      (∀ v : ℚ, v < 800 ∨ 1100 < v → airPressureInput.submittable v = false) ∧
      (∀ v : ℚ, v < 0 ∨ 1500 < v → radiationInput.submittable v = false) ∧
      (∀ v : ℚ, v < -20 ∨ 60 < v → airTemperatureInput.submittable v = false) ∧
      (∀ v : ℚ, v < 0 ∨ 100 < v → relativeHumidityInput.submittable v = false) := by
  simp only [submittedInputs, NumberInput.submittable, dateHourInput,
    windSpeedInput, sunshineInput, airPressureInput, radiationInput,
    airTemperatureInput, relativeHumidityInput, Bool.and_eq_true,
    decide_eq_true_eq] at h
  refine ⟨by tauto,
    fun v => rfl,
    fun v hv => submittable_false_of_out_of_range 0 50 3.5 v hv,
    fun v hv => submittable_false_of_out_of_range 0 24 6 v hv,
    fun v hv => submittable_false_of_out_of_range 800 1100 1013 v hv,
    fun v hv => submittable_false_of_out_of_range 0 1500 650 v hv,
    fun v hv => submittable_false_of_out_of_range (-20) 60 28 v hv,
    fun v hv => submittable_false_of_out_of_range 0 100 45 v hv⟩

/-- Closed witness for `widget_bounds_enforced` at concrete in-range
widget values. -/
theorem widget_bounds_enforced_witness :
    submittedInputs (Inputs.mk 1 3 6 1013 650 28 45) = true ∧
      (0 ≤ (Inputs.mk 1 3 6 1013 650 28 45).wind_speed ∧
        (Inputs.mk 1 3 6 1013 650 28 45).wind_speed ≤ 50) :=
  ⟨by decide,
    (widget_bounds_enforced (Inputs.mk 1 3 6 1013 650 28 45) (by decide)).1.1⟩

/-- C8: error-kind discrimination is by exception type, not origin: a
`FileNotFoundError` raised by the inference call itself lands in the
`except FileNotFoundError` clause and is rendered as that exception's bare
message, not as the generic prediction-failure message. -/
theorem inference_fnf_routed_to_fnf_handler (m : Model) (i : Inputs)
    (msg : String) (h : m [featuresOf i] = .error (.fileNotFound msg)) :
    renderTry (.ok m) i = [.errorBox msg] := by
  simp [renderTry, tryBody, Except.bind, h]

/-- Closed witness for `inference_fnf_routed_to_fnf_handler` at a model
whose `predict` raises a `FileNotFoundError`. -/
theorem inference_fnf_routed_to_fnf_handler_witness :
    ((fun _ => .error (.fileNotFound "weights file missing") : Model)
        [featuresOf defaultInputs] = .error (.fileNotFound "weights file missing")) ∧
      renderTry (.ok (fun _ => .error (.fileNotFound "weights file missing")))
          defaultInputs = [.errorBox "weights file missing"] :=
  ⟨rfl,
    inference_fnf_routed_to_fnf_handler
      (fun _ => .error (.fileNotFound "weights file missing")) defaultInputs
      "weights file missing" rfl⟩

/-- C9: the model's return value is coerced with `.item()`: when `predict`
returns an array that does not hold exactly one element, the coercion raises
inside the `try` block and the output column shows the generic
prediction-failure message (with the debug view), never a multi-element
result. -/
theorem item_rejects_non_scalar (m : Model) (i : Inputs) (ys : List ℚ)
    (h : m [featuresOf i] = .ok ys) (hlen : ys.length ≠ 1) :
    renderTry (.ok m) i =
      [.errorBox genericFailureMsg,
        .exceptionBox (.other "can only convert an array of size 1 to a Python scalar")] := by
  have hitem : npItem ys =
      .error (.other "can only convert an array of size 1 to a Python scalar") := by
    cases ys with
    | nil => rfl
    | cons a t =>
      cases t with
      | nil => exact absurd rfl hlen
      | cons b t₂ => rfl
  simp [renderTry, tryBody, Except.bind, h, hitem]

/-- Closed witness for `item_rejects_non_scalar` at a model returning a
two-element array. -/
theorem item_rejects_non_scalar_witness :
    ((fun _ => .ok [1, 2] : Model) [featuresOf defaultInputs] = .ok [1, 2]) ∧
      (([1, 2] : List ℚ).length ≠ 1) ∧
      renderTry (.ok (fun _ => .ok [1, 2])) defaultInputs =
        [.errorBox genericFailureMsg,
          .exceptionBox (.other "can only convert an array of size 1 to a Python scalar")] :=
  ⟨rfl, by decide,
    item_rejects_non_scalar (fun _ => .ok [1, 2]) defaultInputs [1, 2] rfl (by decide)⟩

/-- C10: the default artifact path is resolved against the process's current
working directory, not against the directory holding `app.py`: when the file
is absent at the CWD-resolved location, `load_model` fails with the
`FileNotFoundError` even if the file is present next to `app.py`; whenever
the CWD-resolved location exists, the deserializer is invoked on exactly
that CWD-resolved path; and the error message nevertheless instructs placing
the file in the same folder as `app.py`. -/
theorem default_path_resolved_against_cwd (fs : FS) (cwd appDir : String)
    (hcwd : fs.pathExists (resolve cwd defaultModelPath) = false)
    (happ : fs.pathExists (resolve appDir defaultModelPath) = true) :
    load_model fs cwd defaultModelPath =
        .error (.fileNotFound (fnfMessage defaultModelPath)) ∧
      (∀ fs₂ : FS, fs₂.pathExists (resolve cwd defaultModelPath) = true →
        load_model fs₂ cwd defaultModelPath =
          fs₂.loadArtifact (resolve cwd defaultModelPath)) ∧
      (∃ pre post,
        fnfMessage defaultModelPath = pre ++ "same folder as app.py" ++ post) := by
  refine ⟨?_, ?_, ?_⟩
  · simp [load_model, hcwd]
  · intro fs₂ h₂
    simp [load_model, h₂]
  · exact ⟨"Model file 'system_production_model.pkl' not found. Make sure it is in the ",
      ".", by decide⟩

/-- Closed witness for `default_path_resolved_against_cwd`: the artifact
sits in the app folder but the process runs elsewhere. -/
theorem default_path_resolved_against_cwd_witness :
    ((FS.mk (fun q => q == "app/system_production_model.pkl")
          (fun _ => .ok (fun _ => .ok [0]))).pathExists
        (resolve "run" defaultModelPath) = false) ∧
      ((FS.mk (fun q => q == "app/system_production_model.pkl")
          (fun _ => .ok (fun _ => .ok [0]))).pathExists
        (resolve "app" defaultModelPath) = true) ∧
      load_model
          (FS.mk (fun q => q == "app/system_production_model.pkl")
            (fun _ => .ok (fun _ => .ok [0]))) "run" defaultModelPath =
        .error (.fileNotFound (fnfMessage defaultModelPath)) :=
  ⟨by decide, by decide,
    (default_path_resolved_against_cwd
      (FS.mk (fun q => q == "app/system_production_model.pkl")
        (fun _ => .ok (fun _ => .ok [0]))) "run" "app" (by decide) (by decide)).1⟩

end SolarApp
